import Mathlib

/-!
Shallow embedding of `src/subway_app.py` (a Streamlit dashboard for Seoul
subway real-time arrivals) and proofs about its text-normalization,
classification, fetch-result and direction-grouping logic.

Python strings are modelled as Lean `String`; `dict.get(key, default)` on the
raw upstream records is modelled with `Option String` fields and
`Option.getD`; Python `int()` is modelled by an explicit digit parser;
Python `//` and `%` (floor division) are `Int.fdiv` / `Int.fmod`.
-/

namespace Subway

/-- Does the pattern occur at the very start of the list? -/
def subAt : List Char → List Char → Bool
  | [], _ => true
  | _ :: _, [] => false
  | a :: as, b :: bs => a == b && subAt as bs

/-- Does the pattern occur anywhere in the list?  Models Python `pat in text`. -/
def hasSub (pat : List Char) : List Char → Bool
  | [] => subAt pat []
  | c :: rest => subAt pat (c :: rest) || hasSub pat rest

/-- `strContains s pat` models the Python membership test `pat in s`. -/
def strContains (s pat : String) : Bool := hasSub pat.data s.data

/-- Drop leading and trailing whitespace from a character list. -/
def stripList (l : List Char) : List Char :=
  ((l.dropWhile Char.isWhitespace).reverse.dropWhile Char.isWhitespace).reverse

/-- Models Python `str.strip()`. -/
def pyStrip (s : String) : String := ⟨stripList s.data⟩

/-- Numeric value of a list of decimal digit characters. -/
def digitsVal (l : List Char) : Nat :=
  l.foldl (fun a c => a * 10 + (c.toNat - 48)) 0

/-- Models Python `int(str)` on an already-stripped character list:
an optional sign followed by at least one decimal digit; anything else raises,
modelled as `none`. -/
def pyIntOfChars : List Char → Option Int
  | [] => none
  | '-' :: rest =>
    if rest ≠ [] ∧ rest.all Char.isDigit then some (-(digitsVal rest : Int)) else none
  | '+' :: rest =>
    if rest ≠ [] ∧ rest.all Char.isDigit then some ((digitsVal rest : Nat) : Int) else none
  | l =>
    if l.all Char.isDigit then some ((digitsVal l : Nat) : Int) else none

/-- Models `int(barvl_dt) if barvl_dt else 0` with the `except` clause turning a
parse failure into `0` (source lines 141-145). -/
def pySecondsOf (s : String) : Int :=
  if s = "" then 0 else (pyIntOfChars (stripList s.data)).getD 0

/-- The fixed line-id table of `get_subway_line_name` (source lines 21-46). -/
def subway_line_map : List (String × String) :=
  [("1001", "1호선"), ("1002", "2호선"), ("1003", "3호선"), ("1004", "4호선"),
   ("1005", "5호선"), ("1006", "6호선"), ("1007", "7호선"), ("1008", "8호선"),
   ("1009", "9호선"), ("1061", "중앙선"), ("1063", "경의중앙선"), ("1065", "공항철도"),
   ("1067", "경춘선"), ("1071", "수인분당선"), ("1075", "분당선"), ("1077", "분당선"),
   ("1081", "신림선"), ("1092", "신분당선"), ("1093", "용인경전철"),
   ("1094", "의정부경전철"), ("1095", "우이신설선"), ("1096", "서해선"),
   ("1097", "김포골드라인"), ("1099", "수인선")]

/-- Embedding of `get_subway_line_name` (source lines 19-48): table hit gives the
display name, a non-empty miss synthesizes `id ++ "호선"`, empty id gives
"알 수 없음". -/
def get_subway_line_name (subway_id : String) : String :=
  match subway_line_map.lookup subway_id with
  | some name => name
  | none => if subway_id ≠ "" then subway_id ++ "호선" else "알 수 없음"

/-- The garbage-token denylist used inside `parse_train_info` (source line 168). -/
def invalid_words : List String := ["접수", "글로벌", "수입", "전환"]

/-- The garbage-token denylist of `is_valid_station_text` (source line 123). -/
def classifier_invalid_words : List String := ["접수", "글로벌", "수입", "전환", "글로벌 수입"]

/-- The domain-keyword allowlist of `is_valid_station_text` (source line 128). -/
def valid_keywords : List String := ["분", "초", "후", "도착", "진입", "전역", "역", "번째"]

/-- Is the character a precomposed Hangul syllable, i.e. in the regex class
`[가-힣]` (U+AC00 to U+D7A3)? -/
def isKoreanSyllable (c : Char) : Bool := 0xAC00 ≤ c.toNat && c.toNat ≤ 0xD7A3

/-- Models `re.match(r'^[가-힣]{2,4}$', text.strip())` (source line 133). -/
def koreanNameShape (text : String) : Bool :=
  decide (2 ≤ (stripList text.data).length) && decide ((stripList text.data).length ≤ 4)
    && (stripList text.data).all isKoreanSyllable

/-- Embedding of `is_valid_station_text` (source lines 117-136). -/
def is_valid_station_text (text : String) : Bool :=
  if text = "" then false
  else if classifier_invalid_words.any (fun w => strContains text w) then false
  else if valid_keywords.any (fun w => strContains text w) then true
  else if koreanNameShape text then true
  else false

/-- The human time string computed from the parsed seconds value
(source lines 147-160). -/
def compute_time_str (barvl_seconds : Int) : String :=
  if 0 < barvl_seconds then
    if 0 < barvl_seconds.fdiv 60 ∧ 0 < barvl_seconds.fmod 60 then
      toString (barvl_seconds.fdiv 60) ++ "분 " ++ toString (barvl_seconds.fmod 60) ++ "초 후"
    else if 0 < barvl_seconds.fdiv 60 then toString (barvl_seconds.fdiv 60) ++ "분 후"
    else if 0 < barvl_seconds.fmod 60 then toString (barvl_seconds.fmod 60) ++ "초 후"
    else "곧 도착"
  else "도착"

/-- One raw upstream arrival record; `none` models an absent key, so that
`Option.getD` is exactly `dict.get(key, default)`. -/
structure RawArrival where
  barvlDt : Option String := none
  arvlMsg2 : Option String := none
  arvlMsg3 : Option String := none
  arvlCd : Option String := none
  bstatnNm : Option String := none
  subwayId : Option String := none
  updnLine : Option String := none
  lstcarAt : Option String := none
deriving DecidableEq

/-- Garbage scrub applied to the two stripped message fields
(source lines 167-172): a field containing a denylisted token becomes empty. -/
def scrub_msg (m : String) : String :=
  if invalid_words.any (fun w => strContains m w) then "" else m

/-- The parsed `barvlDt` seconds value of a record. -/
def parsed_seconds (t : RawArrival) : Int := pySecondsOf (t.barvlDt.getD "0")

/-- `arvl_msg2` after strip and garbage scrub (source lines 163, 169-170). -/
def msg2_of (t : RawArrival) : String := scrub_msg (pyStrip (t.arvlMsg2.getD ""))

/-- `arvl_msg3` after strip and garbage scrub (source lines 164, 171-172). -/
def msg3_of (t : RawArrival) : String := scrub_msg (pyStrip (t.arvlMsg3.getD ""))

/-- Models `is_valid_station_text(arvl_msg2) if arvl_msg2 else False`
(source line 175). -/
def valid_msg2 (m2 : String) : Bool :=
  if m2 ≠ "" then is_valid_station_text m2 else false

/-- Status and display-time selection (source lines 177-205), returned as the
pair (status, time_display). -/
def select_status_time (m2 : String) (v : Bool) (barvl_seconds : Int) (arvl_cd : String) :
    String × String :=
  if v && (strContains m2 "분" || strContains m2 "초" || strContains m2 "후") then (m2, m2)
  else if v && (strContains m2 "도착" || strContains m2 "진입") then
    (m2, if 0 < barvl_seconds then compute_time_str barvl_seconds else "도착")
  else if v && strContains m2 "전역" then
    (m2, if 0 < barvl_seconds then compute_time_str barvl_seconds else "도착")
  else if 0 < barvl_seconds then
    (compute_time_str barvl_seconds, compute_time_str barvl_seconds)
  else if arvl_cd = "0" then ("도착", "도착")
  else if arvl_cd = "1" then ("진입중", "진입중")
  else ("도착", "도착")

/-- The `barvlDt`/`arvlCd` fallback that statuses fall back to when `arvl_msg2`
carries no usable text (source lines 191-205). -/
def status_time_fallback (barvl_seconds : Int) (arvl_cd : String) : String :=
  if 0 < barvl_seconds then compute_time_str barvl_seconds
  else if arvl_cd = "0" then "도착"
  else if arvl_cd = "1" then "진입중"
  else "도착"

/-- Models `re.search(r'\(([가-힣]+)\)', s)`: the capture of the first
parenthesized non-empty run of Hangul syllables (source line 213). -/
def findParenKorean : List Char → Option (List Char)
  | [] => none
  | c :: rest =>
    if c = '(' then
      if rest.takeWhile isKoreanSyllable ≠ [] ∧
          (rest.dropWhile isKoreanSyllable).head? = some ')' then
        some (rest.takeWhile isKoreanSyllable)
      else findParenKorean rest
    else findParenKorean rest

/-- Current-location resolution (source lines 207-217). -/
def compute_location (m2 m3 : String) (v : Bool) : String :=
  if is_valid_station_text m3 then m3
  else if v && !(strContains m2 "분" || strContains m2 "초") then
    match findParenKorean m2.data with
    | some run => ⟨run⟩
    | none => if m2.data.length ≤ 4 ∧ is_valid_station_text m2 then m2 else ""
  else ""

/-- Final garbage scrub of `status` / `time_display` (source lines 219-230). -/
def scrub_final (s : String) (barvl_seconds : Int) : String :=
  if strContains s "접수" || strContains s "글로벌" || strContains s "수입"
      || strContains s "전환" then
    if 0 < barvl_seconds then compute_time_str barvl_seconds else "도착"
  else s

/-- Final garbage scrub of `current_location` (source lines 232-233). -/
def scrub_location (s : String) : String :=
  if strContains s "접수" || strContains s "글로벌" || strContains s "수입"
      || strContains s "전환" then ""
  else s

/-- The normalized arrival view built by `parse_train_info`
(source lines 243-252). -/
structure TrainInfo where
  direction : String
  status : String
  time : String
  current : String
  subway_line : String
  subway_line_name : String
  updn_line : String
  is_last_train : Bool
deriving DecidableEq

/-- Embedding of `parse_train_info` (source lines 138-253). -/
def parse_train_info (t : RawArrival) : TrainInfo :=
  { direction := t.bstatnNm.getD "알 수 없음"
    status := scrub_final
      (select_status_time (msg2_of t) (valid_msg2 (msg2_of t)) (parsed_seconds t)
        (t.arvlCd.getD "")).1 (parsed_seconds t)
    time := scrub_final
      (select_status_time (msg2_of t) (valid_msg2 (msg2_of t)) (parsed_seconds t)
        (t.arvlCd.getD "")).2 (parsed_seconds t)
    current :=
      if scrub_location (compute_location (msg2_of t) (msg3_of t) (valid_msg2 (msg2_of t))) ≠ ""
      then scrub_location (compute_location (msg2_of t) (msg3_of t) (valid_msg2 (msg2_of t)))
      else "알 수 없음"
    subway_line := t.subwayId.getD ""
    subway_line_name := get_subway_line_name (t.subwayId.getD "")
    updn_line := t.updnLine.getD ""
    is_last_train := t.lstcarAt.getD "0" == "1" }

/-- Up-direction token test of the grouping loop (source line 348). -/
def is_up_code (updn : String) : Bool :=
  strContains updn "상행" || strContains updn "내선" || strContains updn "상"

/-- Down-direction token test of the grouping loop (source line 350). -/
def is_down_code (updn : String) : Bool :=
  strContains updn "하행" || strContains updn "외선" || strContains updn "하"

/-- Which tab group an arrival lands in (source lines 344-354): the up check is
evaluated first, and everything unmatched defaults to the down group. -/
def direction_group (updn : String) : String :=
  if is_up_code updn then "up"
  else if is_down_code updn then "down"
  else "down"

/-- The `errorMessage` object of an upstream response. -/
structure ErrorInfo where
  code : Option String := none
  message : Option String := none
deriving DecidableEq

/-- A parsed upstream JSON response, restricted to the shapes the code
branches on: a JSON object with optional `errorMessage`,
`realtimeArrivalList` and legacy `realtimeStationArrival` keys, or a bare
array of arrival records. -/
inductive ApiResponse where
  | obj (errorMessage : Option ErrorInfo) (realtimeArrivalList : Option (List RawArrival))
      (realtimeStationArrival : Option (List RawArrival))
  | arr (items : List RawArrival)
deriving DecidableEq

/-- Classified outcome of one fetch, keeping the user-visible message. -/
inductive FetchResult where
  | apiError (message : String)
  | unexpectedShape
  | success (arrivals : List RawArrival)
deriving DecidableEq

/-- Payload-shape dispatch of `fetch_subway_data` (source lines 88-109): the
current key first, then the legacy key, else the unexpected-shape warning. -/
def classify_payload (current legacy : Option (List RawArrival)) : FetchResult :=
  match current with
  | some l => .success l
  | none =>
    match legacy with
    | some l => .success l
    | none => .unexpectedShape

/-- Classification of the parsed upstream response performed by
`fetch_subway_data` (source lines 79-109). -/
def fetch_classify (r : ApiResponse) : FetchResult :=
  match r with
  | .arr items => .success items
  | .obj em current legacy =>
    match em with
    | some e =>
      if e.code.getD "" ≠ "INFO-000" then .apiError (e.message.getD "알 수 없는 오류")
      else classify_payload current legacy
    | none => classify_payload current legacy

/-- The value `fetch_subway_data` hands back to the page: every error branch
returns `None` (source lines 85-115). -/
def fetch_subway_data (r : ApiResponse) : Option (List RawArrival) :=
  match fetch_classify r with
  | .success l => some l
  | _ => none

/-- The characters other than decimal digits that can appear in a computed
time string. -/
def time_chars : List Char := ['분', ' ', '초', '후', '곧', '도', '착']

/-- What the page shows for a fetch result (source lines 335-338). -/
inductive UiOutcome where
  | stationNotFound
  | noTrains
  | showTrains
deriving DecidableEq

/-- The page's dispatch on the fetch result (source lines 335-338): `None`
gives the station-not-found error, an empty list the distinct
no-trains warning. -/
def main_outcome : Option (List RawArrival) → UiOutcome
  | none => .stationNotFound
  | some [] => .noTrains
  | some (_ :: _) => .showTrains

/-- The concrete raw record of the spec's normalization test vector. -/
def sample_record : RawArrival :=
  { barvlDt := some "125", arvlMsg2 := some "", arvlMsg3 := some "", arvlCd := some "99",
    subwayId := some "1002", updnLine := some "상행", lstcarAt := some "0" }

/-- A raw record whose `arvlMsg2` is the garbage message of the spec's
denylist test vector. -/
def garbage_record : RawArrival :=
  { arvlMsg2 := some "신림행 열차가 접수중입니다", barvlDt := some "90" }

/-! ## Helper lemmas -/

theorem subAt_subset (pat : List Char) : ∀ l, subAt pat l = true → ∀ c ∈ pat, c ∈ l := by
  induction pat with
  | nil => intro l _ c hc; exact absurd hc (List.not_mem_nil c)
  | cons a as ih =>
    intro l h c hc
    cases l with
    | nil => simp [subAt] at h
    | cons b bs =>
      simp only [subAt, Bool.and_eq_true, beq_iff_eq] at h
      rcases List.mem_cons.mp hc with rfl | hc
      · rw [h.1]; exact List.mem_cons_self b bs
      · exact List.mem_cons_of_mem _ (ih bs h.2 c hc)

theorem hasSub_subset (pat : List Char) : ∀ l, hasSub pat l = true → ∀ c ∈ pat, c ∈ l := by
  intro l
  induction l with
  | nil => intro h c hc; exact subAt_subset pat [] h c hc
  | cons b bs ih =>
    intro h c hc
    simp only [hasSub, Bool.or_eq_true] at h
    rcases h with h | h
    · exact subAt_subset pat (b :: bs) h c hc
    · exact List.mem_cons_of_mem _ (ih h c hc)

theorem strContains_subset (s pat : String) (h : strContains s pat = true) :
    ∀ c ∈ pat.data, c ∈ s.data :=
  hasSub_subset pat.data s.data h

theorem digitChar_isDigit (d : Nat) (h : d < 10) : (Nat.digitChar d).isDigit = true := by
  interval_cases d <;> decide

theorem toDigitsCore_digits (fuel : Nat) :
    ∀ (n : Nat) (acc : List Char), (∀ c ∈ acc, c.isDigit = true) →
      ∀ c ∈ Nat.toDigitsCore 10 fuel n acc, c.isDigit = true := by
  induction fuel with
  | zero => intro n acc hacc c hc; exact hacc c hc
  | succ fuel ih =>
    intro n acc hacc c hc
    rw [Nat.toDigitsCore] at hc
    have hcons : ∀ x ∈ Nat.digitChar (n % 10) :: acc, x.isDigit = true := by
      intro x hx
      rcases List.mem_cons.mp hx with rfl | hx
      · exact digitChar_isDigit _ (Nat.mod_lt n (by norm_num))
      · exact hacc x hx
    split at hc
    · exact hcons c hc
    · exact ih (n / 10) _ hcons c hc

theorem natRepr_digits (n : Nat) : ∀ c ∈ (Nat.repr n).data, c.isDigit = true := by
  intro c hc
  exact toDigitsCore_digits (n + 1) n [] (by intro x hx; exact absurd hx (List.not_mem_nil x))
    c hc

theorem int_toString_digits (i : Int) (h : 0 ≤ i) :
    ∀ c ∈ (toString i).data, c.isDigit = true := by
  obtain ⟨n, rfl⟩ := Int.eq_ofNat_of_zero_le h
  exact natRepr_digits n

theorem int_toString_coe (n : Nat) : toString ((n : Int)) = toString n := rfl

theorem append_ne_empty_of_right (a b : String) (hb : b.data ≠ []) : a ++ b ≠ "" := by
  intro h
  have hd := congrArg String.data h
  rw [show (a ++ b).data = a.data ++ b.data from rfl] at hd
  exact hb (List.append_eq_nil.mp hd).2

theorem fdiv_sixty (a : Nat) : (a : Int).fdiv 60 = ((a / 60 : Nat) : Int) := by
  cases a with
  | zero => show (0 : Int) = ((0 / 60 : Nat) : Int); rw [Nat.zero_div]; rfl
  | succ k => rfl

theorem fmod_sixty (a : Nat) : (a : Int).fmod 60 = ((a % 60 : Nat) : Int) := by
  cases a with
  | zero => show (0 : Int) = ((0 % 60 : Nat) : Int); rw [Nat.zero_mod]; rfl
  | succ k => rfl

theorem pos_min_sec (b : Int) (hb : 0 < b) : 0 < b.fdiv 60 ∨ 0 < b.fmod 60 := by
  by_contra h
  push_neg at h
  have h1 : 0 ≤ b.fdiv 60 := Int.fdiv_nonneg (le_of_lt hb) (by norm_num)
  have h2 : 0 ≤ b.fmod 60 := Int.fmod_nonneg' b (by norm_num)
  have h3 : b.fdiv 60 = 0 := le_antisymm h.1 h1
  have h4 : b.fmod 60 = 0 := le_antisymm h.2 h2
  have h5 := Int.fdiv_add_fmod b 60
  rw [h3, h4] at h5
  omega

theorem compute_time_str_chars (b : Int) :
    ∀ c ∈ (compute_time_str b).data, c.isDigit = true ∨ c ∈ time_chars := by
  intro c hc
  unfold compute_time_str at hc
  split at hc
  · rename_i hb
    have hdm : 0 ≤ b.fdiv 60 := Int.fdiv_nonneg (le_of_lt hb) (by norm_num)
    have hsm : 0 ≤ b.fmod 60 := Int.fmod_nonneg' b (by norm_num)
    split at hc
    · rw [show (toString (b.fdiv 60) ++ "분 " ++ toString (b.fmod 60) ++ "초 후").data
          = (toString (b.fdiv 60)).data ++ "분 ".data ++ (toString (b.fmod 60)).data
            ++ "초 후".data from rfl] at hc
      simp only [List.mem_append] at hc
      rcases hc with ((hm | hm) | hm) | hm
      · exact Or.inl (int_toString_digits _ hdm c hm)
      · exact Or.inr ((by decide : ∀ x ∈ "분 ".data, x ∈ time_chars) c hm)
      · exact Or.inl (int_toString_digits _ hsm c hm)
      · exact Or.inr ((by decide : ∀ x ∈ "초 후".data, x ∈ time_chars) c hm)
    · split at hc
      · rw [show (toString (b.fdiv 60) ++ "분 후").data
            = (toString (b.fdiv 60)).data ++ "분 후".data from rfl] at hc
        rcases List.mem_append.mp hc with hm | hm
        · exact Or.inl (int_toString_digits _ hdm c hm)
        · exact Or.inr ((by decide : ∀ x ∈ "분 후".data, x ∈ time_chars) c hm)
      · split at hc
        · rw [show (toString (b.fmod 60) ++ "초 후").data
              = (toString (b.fmod 60)).data ++ "초 후".data from rfl] at hc
          rcases List.mem_append.mp hc with hm | hm
          · exact Or.inl (int_toString_digits _ hsm c hm)
          · exact Or.inr ((by decide : ∀ x ∈ "초 후".data, x ∈ time_chars) c hm)
        · exact Or.inr ((by decide : ∀ x ∈ "곧 도착".data, x ∈ time_chars) c hc)
  · exact Or.inr ((by decide : ∀ x ∈ "도착".data, x ∈ time_chars) c hc)

theorem compute_time_str_clean (b : Int) :
    ∀ w ∈ invalid_words, strContains (compute_time_str b) w = false := by
  intro w hw
  cases hcase : strContains (compute_time_str b) w
  · rfl
  · exfalso
    have hsub := strContains_subset _ _ hcase
    fin_cases hw
    · have h1 := hsub '접' (by decide)
      rcases compute_time_str_chars b '접' h1 with h2 | h2 <;> exact absurd h2 (by decide)
    · have h1 := hsub '글' (by decide)
      rcases compute_time_str_chars b '글' h1 with h2 | h2 <;> exact absurd h2 (by decide)
    · have h1 := hsub '입' (by decide)
      rcases compute_time_str_chars b '입' h1 with h2 | h2 <;> exact absurd h2 (by decide)
    · have h1 := hsub '전' (by decide)
      rcases compute_time_str_chars b '전' h1 with h2 | h2 <;> exact absurd h2 (by decide)

theorem compute_time_str_ne_empty (b : Int) : compute_time_str b ≠ "" := by
  unfold compute_time_str
  split
  · split
    · exact append_ne_empty_of_right _ _ (by decide)
    · split
      · exact append_ne_empty_of_right _ _ (by decide)
      · split
        · exact append_ne_empty_of_right _ _ (by decide)
        · decide
  · decide

theorem compute_time_str_ne_soon (b : Int) : compute_time_str b ≠ "곧 도착" := by
  unfold compute_time_str
  split
  · rename_i hb
    have hdm : 0 ≤ b.fdiv 60 := Int.fdiv_nonneg (le_of_lt hb) (by norm_num)
    have hsm : 0 ≤ b.fmod 60 := Int.fmod_nonneg' b (by norm_num)
    split
    · intro h
      have hmem : '곧' ∈ (toString (b.fdiv 60) ++ "분 " ++ toString (b.fmod 60) ++ "초 후").data := by
        rw [h]; decide
      rw [show (toString (b.fdiv 60) ++ "분 " ++ toString (b.fmod 60) ++ "초 후").data
          = (toString (b.fdiv 60)).data ++ "분 ".data ++ (toString (b.fmod 60)).data
            ++ "초 후".data from rfl] at hmem
      simp only [List.mem_append] at hmem
      rcases hmem with ((hm | hm) | hm) | hm
      · exact absurd (int_toString_digits _ hdm _ hm) (by decide)
      · exact absurd hm (by decide)
      · exact absurd (int_toString_digits _ hsm _ hm) (by decide)
      · exact absurd hm (by decide)
    · split
      · intro h
        have hmem : '곧' ∈ (toString (b.fdiv 60) ++ "분 후").data := by rw [h]; decide
        rw [show (toString (b.fdiv 60) ++ "분 후").data
            = (toString (b.fdiv 60)).data ++ "분 후".data from rfl] at hmem
        rcases List.mem_append.mp hmem with hm | hm
        · exact absurd (int_toString_digits _ hdm _ hm) (by decide)
        · exact absurd hm (by decide)
      · split
        · intro h
          have hmem : '곧' ∈ (toString (b.fmod 60) ++ "초 후").data := by rw [h]; decide
          rw [show (toString (b.fmod 60) ++ "초 후").data
              = (toString (b.fmod 60)).data ++ "초 후".data from rfl] at hmem
          rcases List.mem_append.mp hmem with hm | hm
          · exact absurd (int_toString_digits _ hsm _ hm) (by decide)
          · exact absurd hm (by decide)
        · rename_i h1 h2 h3
          exfalso
          rcases pos_min_sec b hb with h | h
          · exact h2 h
          · exact h3 h
  · decide

theorem scrub_final_clean (s : String) (b : Int) :
    ∀ w ∈ invalid_words, strContains (scrub_final s b) w = false := by
  intro w hw
  unfold scrub_final
  split
  · split
    · exact compute_time_str_clean b w hw
    · fin_cases hw <;> decide
  · rename_i hcond
    simp only [Bool.or_eq_true, not_or, Bool.not_eq_true] at hcond
    fin_cases hw
    · exact hcond.1.1.1
    · exact hcond.1.1.2
    · exact hcond.1.2
    · exact hcond.2

theorem scrub_final_ne_empty (s : String) (b : Int) (hs : s ≠ "") : scrub_final s b ≠ "" := by
  unfold scrub_final
  split
  · split
    · exact compute_time_str_ne_empty b
    · decide
  · exact hs

theorem scrub_final_eq_of_clean (s : String) (b : Int)
    (h : ∀ w ∈ invalid_words, strContains s w = false) : scrub_final s b = s := by
  unfold scrub_final
  rw [h "접수" (by decide), h "글로벌" (by decide), h "수입" (by decide), h "전환" (by decide)]
  rfl

theorem valid_msg2_ne_empty (m2 : String) (h : valid_msg2 m2 = true) : m2 ≠ "" := by
  unfold valid_msg2 at h
  split at h
  · assumption
  · exact absurd h (by decide)

theorem select_status_ne_empty (m2 : String) (v : Bool) (b : Int) (cd : String)
    (hv : v = true → m2 ≠ "") :
    (select_status_time m2 v b cd).1 ≠ "" ∧ (select_status_time m2 v b cd).2 ≠ "" := by
  unfold select_status_time
  split
  · rename_i hcond
    rw [Bool.and_eq_true] at hcond
    have hm2 := hv hcond.1
    exact ⟨hm2, hm2⟩
  · split
    · rename_i hcond hcond2
      rw [Bool.and_eq_true] at hcond2
      have hm2 := hv hcond2.1
      refine ⟨hm2, ?_⟩
      split
      · exact compute_time_str_ne_empty b
      · exact (by decide : ("도착" : String) ≠ "")
    · split
      · rename_i hcond hcond2 hcond3
        rw [Bool.and_eq_true] at hcond3
        have hm2 := hv hcond3.1
        refine ⟨hm2, ?_⟩
        split
        · exact compute_time_str_ne_empty b
        · exact (by decide : ("도착" : String) ≠ "")
      · split
        · exact ⟨compute_time_str_ne_empty b, compute_time_str_ne_empty b⟩
        · split
          · exact ⟨by decide, by decide⟩
          · split
            · exact ⟨by decide, by decide⟩
            · exact ⟨by decide, by decide⟩

theorem select_status_time_invalid (b : Int) (cd : String) :
    select_status_time "" false b cd =
      (status_time_fallback b cd, status_time_fallback b cd) := by
  unfold select_status_time status_time_fallback
  simp only [Bool.false_and, Bool.false_eq_true, if_false]
  split
  · rfl
  · split
    · rfl
    · split
      · rfl
      · rfl

theorem status_time_fallback_clean (b : Int) (cd : String) :
    ∀ w ∈ invalid_words, strContains (status_time_fallback b cd) w = false := by
  intro w hw
  unfold status_time_fallback
  split
  · exact compute_time_str_clean b w hw
  · split
    · fin_cases hw <;> decide
    · split
      · fin_cases hw <;> decide
      · fin_cases hw <;> decide

theorem parse_status (t : RawArrival) :
    (parse_train_info t).status = scrub_final
      (select_status_time (msg2_of t) (valid_msg2 (msg2_of t)) (parsed_seconds t)
        (t.arvlCd.getD "")).1 (parsed_seconds t) := rfl

theorem parse_time (t : RawArrival) :
    (parse_train_info t).time = scrub_final
      (select_status_time (msg2_of t) (valid_msg2 (msg2_of t)) (parsed_seconds t)
        (t.arvlCd.getD "")).2 (parsed_seconds t) := rfl

theorem parse_direction (t : RawArrival) :
    (parse_train_info t).direction = t.bstatnNm.getD "알 수 없음" := rfl

theorem parse_current (t : RawArrival) :
    (parse_train_info t).current =
      (if scrub_location (compute_location (msg2_of t) (msg3_of t) (valid_msg2 (msg2_of t))) ≠ ""
       then scrub_location (compute_location (msg2_of t) (msg3_of t) (valid_msg2 (msg2_of t)))
       else "알 수 없음") := rfl

/-! ## Claim theorems -/

/-- C1 (counterexample): on the upstream response
`{"errorMessage": {"code": "INFO-000"}}` with no arrival-list key, the fetch is
NOT treated as a success with an empty list, and the page does NOT show the
no-trains message; the claim fails at this concrete input. -/
theorem info000_without_key_cex :
    fetch_classify (.obj (some { code := some "INFO-000" }) none none) ≠
        FetchResult.success [] ∧
      main_outcome (fetch_subway_data (.obj (some { code := some "INFO-000" }) none none)) ≠
        UiOutcome.noTrains := by
  decide

/-- C1 (amended): a response whose `errorMessage` code is the success sentinel
`INFO-000` but that carries no arrival-list key is classified as an unexpected
shape and returns `None`, so the page shows the station-not-found error; the
distinct no-trains message appears only when an arrival key is present with an
empty list. -/
theorem info000_without_key_behavior :
    fetch_classify (.obj (some { code := some "INFO-000" }) none none) =
        FetchResult.unexpectedShape ∧
      main_outcome (fetch_subway_data (.obj (some { code := some "INFO-000" }) none none)) =
        UiOutcome.stationNotFound ∧
      main_outcome (fetch_subway_data (.obj (some { code := some "INFO-000" }) (some []) none)) =
        UiOutcome.noTrains := by
  decide

/-- C2 (counterexample): for the raw record whose `bstatnNm` key is present but
empty, the normalized arrival does NOT have non-empty strings in all four of
direction, status, time and current-location: its direction is the empty
string. -/
theorem nonempty_fields_cex :
    ¬ ((parse_train_info { bstatnNm := some "" }).direction ≠ "" ∧
        (parse_train_info { bstatnNm := some "" }).status ≠ "" ∧
        (parse_train_info { bstatnNm := some "" }).time ≠ "" ∧
        (parse_train_info { bstatnNm := some "" }).current ≠ "") := by
  decide

/-- C2 (amended): for every raw arrival record, the normalized status, time and
current-location fields are non-empty strings, and the direction field is
non-empty whenever `bstatnNm` is not present as the empty string (absent keys
get the non-empty fallback, but a present-and-empty `bstatnNm` passes through
as the empty direction). -/
theorem nonempty_fields (t : RawArrival) :
    (parse_train_info t).status ≠ "" ∧ (parse_train_info t).time ≠ "" ∧
      (parse_train_info t).current ≠ "" ∧
      (t.bstatnNm ≠ some "" → (parse_train_info t).direction ≠ "") := by
  refine ⟨?_, ?_, ?_, ?_⟩
  · rw [parse_status]
    exact scrub_final_ne_empty _ _
      (select_status_ne_empty _ _ _ _ (fun h => valid_msg2_ne_empty _ h)).1
  · rw [parse_time]
    exact scrub_final_ne_empty _ _
      (select_status_ne_empty _ _ _ _ (fun h => valid_msg2_ne_empty _ h)).2
  · rw [parse_current]
    split
    · assumption
    · exact (by decide : ("알 수 없음" : String) ≠ "")
  · intro h
    rw [parse_direction]
    cases hb : t.bstatnNm with
    | none => exact (by decide : ("알 수 없음" : String) ≠ "")
    | some s =>
      intro hs
      exact h (by rw [hb, show s = "" from hs])

theorem nonempty_fields_witness :
    (parse_train_info { }).status ≠ "" ∧ (parse_train_info { }).time ≠ "" ∧
      (parse_train_info { }).current ≠ "" ∧ (parse_train_info { }).direction ≠ "" :=
  ⟨(nonempty_fields { }).1, (nonempty_fields { }).2.1, (nonempty_fields { }).2.2.1,
   (nonempty_fields { }).2.2.2 (by decide)⟩

/-- C3 (counterexample): the up-direction check and the down-direction check of
the grouping loop are NOT mutually exclusive: the direction-code string
"상하" satisfies both. -/
theorem direction_checks_overlap_cex :
    is_up_code "상하" = true ∧ is_down_code "상하" = true := by
  decide

/-- C3 (amended): the two token checks overlap ("상하" satisfies both), and
because the up check is evaluated first any overlapping code is placed in the
up group, so evaluation order does matter; codes recognized by neither check
default to the down group. -/
theorem direction_grouping_behavior :
    (is_up_code "상하" = true ∧ is_down_code "상하" = true ∧
        direction_group "상하" = "up") ∧
      (∀ u : String, is_up_code u = true → direction_group u = "up") ∧
      (∀ u : String, is_up_code u = false ∧ is_down_code u = false →
        direction_group u = "down") := by
  refine ⟨⟨by decide, by decide, by decide⟩, ?_, ?_⟩
  · intro u h
    unfold direction_group
    rw [h]
    rfl
  · intro u h
    unfold direction_group
    rw [h.1, h.2]
    rfl

theorem direction_grouping_behavior_witness :
    direction_group "상행" = "up" ∧ direction_group "급행" = "down" :=
  ⟨direction_grouping_behavior.2.1 "상행" (by decide),
   direction_grouping_behavior.2.2 "급행" ⟨by decide, by decide⟩⟩

/-- C4: for every raw arrival record no denylisted garbage token appears in the
normalized status or time-display field, and in particular for any record whose
`arvlMsg2` is "신림행 열차가 접수중입니다" (which contains the denylisted
token "접수"), status and time-display are the computed time string when the
parsed seconds are positive and the "도착"/`arvlCd`-based fallback
otherwise. -/
theorem no_garbage_in_status_time :
    (∀ (t : RawArrival), ∀ w ∈ invalid_words,
        strContains (parse_train_info t).status w = false ∧
        strContains (parse_train_info t).time w = false) ∧
      (∀ t : RawArrival, t.arvlMsg2 = some "신림행 열차가 접수중입니다" →
        (parse_train_info t).status =
            status_time_fallback (parsed_seconds t) (t.arvlCd.getD "") ∧
          (parse_train_info t).time =
            status_time_fallback (parsed_seconds t) (t.arvlCd.getD "")) := by
  constructor
  · intro t w hw
    rw [parse_status, parse_time]
    exact ⟨scrub_final_clean _ _ w hw, scrub_final_clean _ _ w hw⟩
  · intro t h
    have hm : msg2_of t = "" := by
      rw [msg2_of, h]
      rfl
    have hv : valid_msg2 "" = false := rfl
    constructor
    · rw [parse_status, hm, hv, select_status_time_invalid]
      exact scrub_final_eq_of_clean _ _ (status_time_fallback_clean _ _)
    · rw [parse_time, hm, hv, select_status_time_invalid]
      exact scrub_final_eq_of_clean _ _ (status_time_fallback_clean _ _)

theorem no_garbage_in_status_time_witness :
    strContains (parse_train_info garbage_record).status "접수" = false ∧
      (parse_train_info garbage_record).status =
        status_time_fallback (parsed_seconds garbage_record) "" :=
  ⟨(no_garbage_in_status_time.1 garbage_record "접수" (by decide)).1,
   (no_garbage_in_status_time.2 garbage_record rfl).1⟩

/-- C5: for every non-negative seconds value `s`, a positive multiple of 60
formats as "`s/60`분 후" with no seconds clause, a value strictly between 0 and
60 formats as "`s`초 후", and 0 formats as "도착". -/
theorem time_string_format (s : Nat) :
    (0 < s → s % 60 = 0 → compute_time_str (s : Int) = toString (s / 60) ++ "분 후") ∧
      (0 < s → s < 60 → compute_time_str (s : Int) = toString s ++ "초 후") ∧
      (s = 0 → compute_time_str (s : Int) = "도착") := by
  refine ⟨?_, ?_, ?_⟩
  · intro hs h60
    have hpos : (0 : Int) < (s : Int) := by exact_mod_cast hs
    have hdivpos : 0 < s / 60 :=
      Nat.div_pos (Nat.le_of_dvd hs (Nat.dvd_of_mod_eq_zero h60)) (by norm_num)
    unfold compute_time_str
    rw [fdiv_sixty, fmod_sixty, h60]
    rw [if_pos hpos]
    rw [if_neg (by simp)]
    rw [if_pos (by exact_mod_cast hdivpos)]
    rw [int_toString_coe]
  · intro hs h60
    have hpos : (0 : Int) < (s : Int) := by exact_mod_cast hs
    unfold compute_time_str
    rw [fdiv_sixty, fmod_sixty, Nat.div_eq_of_lt h60, Nat.mod_eq_of_lt h60]
    rw [if_pos hpos]
    rw [if_neg (by simp)]
    rw [if_neg (by simp)]
    rw [if_pos (by exact_mod_cast hs)]
    rw [int_toString_coe]
  · intro hs
    rw [hs]
    decide

theorem time_string_format_witness :
    compute_time_str ((120 : Nat) : Int) = toString ((120 : Nat) / 60) ++ "분 후" ∧
      compute_time_str ((30 : Nat) : Int) = toString (30 : Nat) ++ "초 후" ∧
      compute_time_str ((0 : Nat) : Int) = "도착" :=
  ⟨(time_string_format 120).1 (by decide) (by decide),
   (time_string_format 30).2.1 (by decide) (by decide),
   (time_string_format 0).2.2 rfl⟩

/-- C6: the text classifier returns false for the empty string, and false for
every string containing a denylisted garbage token, regardless of what else
(including allowlisted tokens) the string contains. -/
theorem classifier_denylist_precedence :
    is_valid_station_text "" = false ∧
      ∀ text : String, ∀ w ∈ invalid_words, strContains text w = true →
        is_valid_station_text text = false := by
  constructor
  · decide
  · intro text w hw hc
    unfold is_valid_station_text
    by_cases he : text = ""
    · rw [if_pos he]
    · rw [if_neg he,
        if_pos (List.any_eq_true.mpr ⟨w, by fin_cases hw <;> decide, hc⟩)]

theorem classifier_denylist_precedence_witness :
    is_valid_station_text "접수 도착" = false :=
  classifier_denylist_precedence.2 "접수 도착" "접수" (by decide) (by decide)

/-- C7: every upstream response carrying an embedded error object whose code
differs from the success sentinel "INFO-000" yields an api-category error
carrying the upstream message (with the default message when absent), and the
fetch returns no arrival list. -/
theorem api_error_surfaced (e : ErrorInfo) (cur leg : Option (List RawArrival))
    (h : e.code.getD "" ≠ "INFO-000") :
    fetch_classify (.obj (some e) cur leg) =
        FetchResult.apiError (e.message.getD "알 수 없는 오류") ∧
      fetch_subway_data (.obj (some e) cur leg) = none := by
  have h1 : fetch_classify (.obj (some e) cur leg) =
      FetchResult.apiError (e.message.getD "알 수 없는 오류") := by
    show (if e.code.getD "" ≠ "INFO-000" then
        FetchResult.apiError (e.message.getD "알 수 없는 오류")
      else classify_payload cur leg) = FetchResult.apiError (e.message.getD "알 수 없는 오류")
    rw [if_pos h]
  refine ⟨h1, ?_⟩
  unfold fetch_subway_data
  rw [h1]

theorem api_error_surfaced_witness :
    fetch_classify (.obj (some { code := some "ERROR-300", message := some "invalid key" })
        none none) = FetchResult.apiError "invalid key" ∧
      fetch_subway_data (.obj (some { code := some "ERROR-300", message := some "invalid key" })
        none none) = none :=
  api_error_surfaced { code := some "ERROR-300", message := some "invalid key" } none none
    (by decide)

/-- C8: the single raw record with `barvlDt` "125", empty messages, `arvlCd`
"99", `subwayId` "1002", `updnLine` "상행" and `lstcarAt` "0" normalizes to
time display "2분 5초 후", line name "2호선", last-train flag false, and is
grouped with the up direction. -/
theorem concrete_record_normalization :
    (parse_train_info sample_record).time = "2분 5초 후" ∧
      (parse_train_info sample_record).subway_line_name = "2호선" ∧
      (parse_train_info sample_record).is_last_train = false ∧
      direction_group (parse_train_info sample_record).updn_line = "up" := by
  decide

/-- C9: the line-code resolver maps the known id "1001" to "1호선", synthesizes
"9999호선" for the unknown id "9999", and maps the empty id to the unknown
constant "알 수 없음". -/
theorem line_name_resolution :
    get_subway_line_name "1001" = "1호선" ∧ get_subway_line_name "9999" = "9999호선" ∧
      get_subway_line_name "" = "알 수 없음" := by
  decide

/-- C10: the computed human time string is never "곧 도착" for any raw arrival
record, because whenever the parsed seconds value is positive at least one of
its minutes part and seconds part is positive, so the branch producing
"곧 도착" is unreachable. -/
theorem soon_branch_unreachable :
    (∀ t : RawArrival, compute_time_str (parsed_seconds t) ≠ "곧 도착") ∧
      (∀ b : Int, 0 < b → 0 < b.fdiv 60 ∨ 0 < b.fmod 60) :=
  ⟨fun t => compute_time_str_ne_soon (parsed_seconds t), fun b hb => pos_min_sec b hb⟩

theorem soon_branch_unreachable_witness :
    compute_time_str (parsed_seconds { barvlDt := some "60" }) ≠ "곧 도착" ∧
      (0 < (60 : Int).fdiv 60 ∨ 0 < (60 : Int).fmod 60) :=
  ⟨soon_branch_unreachable.1 { barvlDt := some "60" },
   soon_branch_unreachable.2 60 (by decide)⟩

end Subway
